import Mathlib

/-!
Shallow embedding of `requirements.py`, a gamepad teleoperation controller
for a two-motor hub.  The program is a single polling loop over
module-level mutable state; we model one loop iteration as a pure `step`
function from a `State` and an `Input` (the values read from the gamepad
at the top of the iteration) to the updated `State` together with an
`Output` record of the externally visible commands issued during that
iteration (motor speed commands, stop-motor invocations, rumble pulses).
The hub light is modelled by the color it shows at the end of the
iteration; the transient colors held during the blocking `wait(200)`
flashes inside a single iteration are real-time behavior outside the
embedding.  The `stop_motors` fallback ladder is modelled separately with
an explicit fault oracle recording which device calls raise.
-/

namespace Req

/-- Colors of `pybricks.parameters.Color` used by the script. -/
inductive Color where
  | red
  | green
  | blue
  | yellow
  | orange
  | cyan
deriving DecidableEq

/-- Module-level constant `cruise_speed_step = 100`. -/
def cruise_speed_step : Int := 100

/-- Module-level constant `cruise_speed_min = -2000`. -/
def cruise_speed_min : Int := -2000

/-- Module-level constant `cruise_speed_max = 2000`. -/
def cruise_speed_max : Int := 2000

/-- Module-level constant `turn_slowdown = 300`. -/
def turn_slowdown : Int := 300

/-- Module-level constant `trigger_debug = True`. -/
def trigger_debug : Bool := true

/-- The list `b_color_cycle = [Color.BLUE, Color.CYAN, Color.ORANGE, Color.RED, Color.GREEN]`. -/
def b_color_cycle : List Color :=
  [Color.blue, Color.cyan, Color.orange, Color.red, Color.green]

/-- The mutable module-level state read and written by the main loop. -/
structure State where
  cruise_mode : Bool
  cruise_speed : Int
  b_color_index : Int
  previous_lb_pressed : Bool
  previous_b_pressed : Bool
  previous_rb_pressed : Bool
  previous_up_pressed : Bool
  previous_down_pressed : Bool
  previous_lt_active : Bool
  previous_rt_active : Bool
  light : Color
deriving DecidableEq

/-- One iteration's worth of gamepad reads: the joystick axes returned by
`joystick_left()` / `joystick_right()`, membership of each button in the
`pressed` set, and the computed LT/RT activity of the trigger-debug block
(digital `Button.LT`/`Button.RT` membership, falling back to the analog
trigger-value heuristic `_trigger_active`; the claims do not depend on how
this boolean is obtained, so it enters as an input). -/
structure Input where
  left_horizontal : Int
  left_vertical : Int
  right_horizontal : Int
  right_vertical : Int
  lb : Bool
  b : Bool
  up : Bool
  down : Bool
  left : Bool
  right : Bool
  rb : Bool
  a : Bool
  y : Bool
  lt_active : Bool
  rt_active : Bool
deriving DecidableEq

/-- The externally visible commands issued during one loop iteration. -/
structure Output where
  stop_motors_calls : Nat
  motor1_speed : Int
  motor2_speed : Int
  skid_rumble : Bool
  b_rumble : Bool
deriving DecidableEq

/-- The function `set_base_light()`: the base color as a function of the
state it reads (`b_color_index`, `cruise_mode`). -/
def set_base_light (b_color_index : Int) (cruise_mode : Bool) : Color :=
  if b_color_index ≥ 0 then
    b_color_cycle.getD b_color_index.toNat Color.green
  else
    if cruise_mode then Color.yellow else Color.green

/-- One iteration of the main `while True` loop, translated statement by
statement from `requirements.py` lines 131-246. -/
def step (s : State) (i : Input) : State × Output :=
  -- LT/RT trigger debug: override light while held, restore base when released.
  let light0 :=
    if trigger_debug then
      if i.lt_active || i.rt_active then
        if i.lt_active && i.rt_active then Color.orange
        else if i.lt_active then Color.blue
        else Color.cyan
      else if s.previous_lt_active || s.previous_rt_active then
        set_base_light s.b_color_index s.cruise_mode
      else s.light
    else s.light
  -- Detect LB button press (rising edge) to toggle cruise mode
  let lb_pressed := i.lb
  let lb_edge := lb_pressed && !s.previous_lb_pressed
  let cruise_mode1 := if lb_edge then !s.cruise_mode else s.cruise_mode
  let stop_calls : Nat := if lb_edge && !cruise_mode1 then 1 else 0
  let light1 := if lb_edge then set_base_light s.b_color_index cruise_mode1 else light0
  -- Button B: rumble + advance color cycle once per press (rising edge)
  let b_pressed := i.b
  let b_edge := b_pressed && !s.previous_b_pressed
  let b_color_index1 :=
    if b_edge then (s.b_color_index + 1) % (b_color_cycle.length : Int)
    else s.b_color_index
  let light2 := if b_edge then set_base_light b_color_index1 cruise_mode1 else light1
  -- D-pad UP/DOWN: adjust cruise speed (persists after release)
  let up_pressed := i.up
  let cruise_speed1 :=
    if up_pressed && !s.previous_up_pressed then
      min (s.cruise_speed + cruise_speed_step) cruise_speed_max
    else s.cruise_speed
  let down_pressed := i.down
  let cruise_speed2 :=
    if down_pressed && !s.previous_down_pressed then
      max (cruise_speed1 - cruise_speed_step) cruise_speed_min
    else cruise_speed1
  -- Determine motor speeds
  let motor1_speed0 := if cruise_mode1 then cruise_speed2 else i.left_vertical * 20
  let motor2_speed0 := if cruise_mode1 then cruise_speed2 else i.right_vertical * 20
  -- Rumble if joysticks pushed in opposite directions (skid-steer warning)
  let skid_rumble := !cruise_mode1 &&
    ((decide (i.left_vertical > 20) && decide (i.right_vertical < -20)) ||
     (decide (i.left_vertical < -20) && decide (i.right_vertical > 20)))
  -- D-pad LEFT/RIGHT: temporarily slow one side
  let motor2_speed := if i.right then max (motor2_speed0 - turn_slowdown) cruise_speed_min else motor2_speed0
  let motor1_speed := if i.left then max (motor1_speed0 - turn_slowdown) cruise_speed_min else motor1_speed0
  -- Button A: flash blue, then return to base color
  let light3 := if i.a then set_base_light b_color_index1 cruise_mode1 else light2
  -- Button Y: color sequence, then return to base color
  let light4 := if i.y then set_base_light b_color_index1 cruise_mode1 else light3
  -- Button RB: red while held, restore base color on release
  let rb_pressed := i.rb
  let light5 :=
    if rb_pressed then Color.red
    else if s.previous_rb_pressed then set_base_light b_color_index1 cruise_mode1
    else light4
  ({ cruise_mode := cruise_mode1
     cruise_speed := cruise_speed2
     b_color_index := b_color_index1
     previous_lb_pressed := lb_pressed
     previous_b_pressed := b_pressed
     previous_rb_pressed := rb_pressed
     previous_up_pressed := up_pressed
     previous_down_pressed := down_pressed
     previous_lt_active := i.lt_active
     previous_rt_active := i.rt_active
     light := light5 },
   { stop_motors_calls := stop_calls
     motor1_speed := motor1_speed
     motor2_speed := motor2_speed
     skid_rumble := skid_rumble
     b_rumble := b_edge })

/-- The module-level state at entry to the first loop iteration:
`cruise_mode = False`, `cruise_speed = 1000`, `b_color_index = -1`, all
`previous_*` flags `False`; the light shows the base color (green) set by
`set_base_light()` on successful connection. -/
def initState : State :=
  { cruise_mode := false
    cruise_speed := 1000
    b_color_index := -1
    previous_lb_pressed := false
    previous_b_pressed := false
    previous_rb_pressed := false
    previous_up_pressed := false
    previous_down_pressed := false
    previous_lt_active := false
    previous_rt_active := false
    light := Color.green }

/-- Iterating the loop over a list of per-iteration inputs. -/
def run (s : State) : List Input → State
  | [] => s
  | i :: rest => run (step s i).1 rest

/-- Number of rising edges of button B along an input list, given the
value of `previous_b_pressed` at the start. -/
def bEdges (prev : Bool) : List Input → Nat
  | [] => 0
  | i :: rest => (if i.b && !prev then 1 else 0) + bEdges i.b rest

/-- Fault oracle for `stop_motors()`: for each device call in the fallback
ladder, whether that call raises an exception.  `stopImportRaises` covers
the local `from pybricks.parameters import Stop` failing (older firmware).
`brake1_raises` and `brake2_raises` are `drive_motor1.stop(Stop.BRAKE)` and
`drive_motor2.stop(Stop.BRAKE)`; `stop1_raises`, `stop2_raises` are the
plain `stop()` calls; `run1_raises`, `run2_raises` the `run(0)` calls. -/
structure StopEnv where
  stopImportRaises : Bool
  brake1_raises : Bool
  brake2_raises : Bool
  stop1_raises : Bool
  stop2_raises : Bool
  run1_raises : Bool
  run2_raises : Bool
deriving DecidableEq

/-- A device call attempted by `stop_motors()`. -/
inductive StopCall where
  | brake1
  | brake2
  | stop1
  | stop2
  | run1
  | run2
deriving DecidableEq

/-- Last resort tier of `stop_motors`: `drive_motor1.run(0); drive_motor2.run(0)`,
outside any `try`, so an exception here propagates.  Returns the calls
attempted so far and whether an exception escaped `stop_motors`. -/
def stop_motors_tier3 (env : StopEnv) (trace : List StopCall) : List StopCall × Bool :=
  if env.run1_raises then (trace ++ [StopCall.run1], true)
  else if env.run2_raises then (trace ++ [StopCall.run1, StopCall.run2], true)
  else (trace ++ [StopCall.run1, StopCall.run2], false)

/-- Second tier of `stop_motors`: `try: drive_motor1.stop(); drive_motor2.stop();
return except Exception: pass`, falling through to the last resort. -/
def stop_motors_tier2 (env : StopEnv) (trace : List StopCall) : List StopCall × Bool :=
  if env.stop1_raises then stop_motors_tier3 env (trace ++ [StopCall.stop1])
  else if env.stop2_raises then stop_motors_tier3 env (trace ++ [StopCall.stop1, StopCall.stop2])
  else (trace ++ [StopCall.stop1, StopCall.stop2], false)

/-- The function `stop_motors()` (requirements.py lines 98-118): first tier
imports `Stop` and tries `stop(Stop.BRAKE)` on both motors inside a
`try/except Exception: pass`; on any exception it falls through to the
plain-`stop()` tier, and from there to `run(0)`.  Result: the list of
device calls attempted, and whether an exception escaped the function. -/
def stop_motors (env : StopEnv) : List StopCall × Bool :=
  if env.stopImportRaises then stop_motors_tier2 env []
  else if env.brake1_raises then stop_motors_tier2 env [StopCall.brake1]
  else if env.brake2_raises then stop_motors_tier2 env [StopCall.brake1, StopCall.brake2]
  else ([StopCall.brake1, StopCall.brake2], false)

/-- Whether the first tier of `stop_motors` raises somewhere. -/
def tier1_fails (env : StopEnv) : Bool :=
  env.stopImportRaises || env.brake1_raises || env.brake2_raises

/-- Whether the second tier of `stop_motors` raises somewhere. -/
def tier2_fails (env : StopEnv) : Bool :=
  env.stop1_raises || env.stop2_raises

/-- An input with neutral joysticks and no buttons pressed. -/
def noInput : Input :=
  { left_horizontal := 0
    left_vertical := 0
    right_horizontal := 0
    right_vertical := 0
    lb := false
    b := false
    up := false
    down := false
    left := false
    right := false
    rb := false
    a := false
    y := false
    lt_active := false
    rt_active := false }

/-- Input with only the D-pad UP button pressed. -/
def upInput : Input := { noInput with up := true }

/-- Input with only button B pressed. -/
def bPressInput : Input := { noInput with b := true }

/-- Input with both verticals at 50 and no buttons pressed. -/
def joys50Input : Input := { noInput with left_vertical := 50, right_vertical := 50 }

/-- Input with both verticals at -100 and LEFT and RIGHT d-pad held. -/
def turnInput : Input :=
  { noInput with left_vertical := -100, right_vertical := -100, left := true, right := true }

/-- Initial state with RB recorded as pressed on the previous iteration. -/
def rbHeldState : State := { initState with previous_rb_pressed := true }

/-- Fault scenario: the braked stop raises on motor 1, everything else succeeds. -/
def stopEnvEx : StopEnv :=
  { stopImportRaises := false
    brake1_raises := true
    brake2_raises := false
    stop1_raises := false
    stop2_raises := false
    run1_raises := false
    run2_raises := false }

/-- The updated `cruise_mode` after one iteration, in terms of the pre-state. -/
lemma step_cruise_mode (s : State) (i : Input) :
    (step s i).1.cruise_mode =
      if i.lb && !s.previous_lb_pressed then !s.cruise_mode else s.cruise_mode := rfl

/-- The updated `cruise_speed` after one iteration, in terms of the pre-state. -/
lemma step_cruise_speed (s : State) (i : Input) :
    (step s i).1.cruise_speed =
      (if i.down && !s.previous_down_pressed then
        max ((if i.up && !s.previous_up_pressed then
                min (s.cruise_speed + cruise_speed_step) cruise_speed_max
              else s.cruise_speed) - cruise_speed_step) cruise_speed_min
       else
        (if i.up && !s.previous_up_pressed then
           min (s.cruise_speed + cruise_speed_step) cruise_speed_max
         else s.cruise_speed)) := rfl

/-- The updated `b_color_index` after one iteration. -/
lemma step_b_color_index (s : State) (i : Input) :
    (step s i).1.b_color_index =
      if i.b && !s.previous_b_pressed then
        (s.b_color_index + 1) % (b_color_cycle.length : Int)
      else s.b_color_index := rfl

/-- The color cycle has five entries. -/
lemma b_cycle_len : (b_color_cycle.length : Int) = 5 := rfl

/-- The commanded speed of motor 1, in terms of the post-state mode and speed. -/
lemma step_motor1_speed (s : State) (i : Input) :
    (step s i).2.motor1_speed =
      (if i.left then
         max ((if (step s i).1.cruise_mode then (step s i).1.cruise_speed
               else i.left_vertical * 20) - 300) (-2000)
       else
         (if (step s i).1.cruise_mode then (step s i).1.cruise_speed
          else i.left_vertical * 20)) := rfl

/-- The commanded speed of motor 2, in terms of the post-state mode and speed. -/
lemma step_motor2_speed (s : State) (i : Input) :
    (step s i).2.motor2_speed =
      (if i.right then
         max ((if (step s i).1.cruise_mode then (step s i).1.cruise_speed
               else i.right_vertical * 20) - 300) (-2000)
       else
         (if (step s i).1.cruise_mode then (step s i).1.cruise_speed
          else i.right_vertical * 20)) := rfl

/-- The skid-steer rumble flag, in terms of the post-state mode. -/
lemma step_skid_rumble (s : State) (i : Input) :
    (step s i).2.skid_rumble =
      (!(step s i).1.cruise_mode &&
        ((decide (i.left_vertical > 20) && decide (i.right_vertical < -20)) ||
         (decide (i.left_vertical < -20) && decide (i.right_vertical > 20)))) := rfl

/-- One iteration keeps `cruise_speed` within `[cruise_speed_min, cruise_speed_max]`. -/
lemma step_speed_bounds (s : State) (i : Input)
    (h1 : cruise_speed_min ≤ s.cruise_speed) (h2 : s.cruise_speed ≤ cruise_speed_max) :
    cruise_speed_min ≤ (step s i).1.cruise_speed ∧
    (step s i).1.cruise_speed ≤ cruise_speed_max := by
  rw [step_cruise_speed]
  simp only [cruise_speed_step, cruise_speed_min, cruise_speed_max, min_def, max_def] at *
  split_ifs <;> constructor <;> omega

/-- Running any input list keeps `cruise_speed` within bounds. -/
lemma run_speed_bounds : ∀ (is : List Input) (s : State),
    cruise_speed_min ≤ s.cruise_speed → s.cruise_speed ≤ cruise_speed_max →
    cruise_speed_min ≤ (run s is).cruise_speed ∧ (run s is).cruise_speed ≤ cruise_speed_max
  | [], _, h1, h2 => ⟨h1, h2⟩
  | i :: rest, s, h1, h2 =>
      run_speed_bounds rest (step s i).1 (step_speed_bounds s i h1 h2).1
        (step_speed_bounds s i h1 h2).2

/-- C1: for every sequence of loop iterations starting from the initial
state (`cruise_speed = 1000`), each UP rising edge sets `cruise_speed` to
`min(cruise_speed + 100, 2000)` and each DOWN rising edge to
`max(cruise_speed - 100, -2000)`, so `cruise_speed` stays within
`[-2000, 2000]` after any number of iterations. -/
theorem cruise_speed_always_in_bounds (is : List Input) :
    -2000 ≤ (run initState is).cruise_speed ∧ (run initState is).cruise_speed ≤ 2000 :=
  run_speed_bounds is initState (by decide) (by decide)

/-- Relates `b_color_index` after a run to the number of B rising edges
seen so far: starting from an index that records `k` earlier presses, the
index after the run records `k` plus the edges in the run. -/
lemma run_b_color_index : ∀ (is : List Input) (s : State) (k : Nat),
    s.b_color_index = (if k = 0 then (-1 : Int) else ((k : Int) - 1) % 5) →
    (run s is).b_color_index =
      (if k + bEdges s.previous_b_pressed is = 0 then (-1 : Int)
       else (((k + bEdges s.previous_b_pressed is : Nat) : Int) - 1) % 5) := by
  intro is
  induction is with
  | nil =>
      intro s k h
      simpa [run, bEdges] using h
  | cons i rest ih =>
      intro s k h
      have hstep : run s (i :: rest) = run (step s i).1 rest := rfl
      have hprev : (step s i).1.previous_b_pressed = i.b := rfl
      by_cases he : (i.b && !s.previous_b_pressed) = true
      · have hidx : (step s i).1.b_color_index = (s.b_color_index + 1) % 5 := by
          rw [step_b_color_index, he, b_cycle_len]
          simp
        have h' : (step s i).1.b_color_index =
            (if k + 1 = 0 then (-1 : Int) else (((k + 1 : Nat) : Int) - 1) % 5) := by
          rw [hidx, h]
          by_cases hk : k = 0
          · simp [hk]
          · simp only [hk, if_false, Nat.add_eq_zero, one_ne_zero, and_false]
            push_cast
            omega
        have hrec := ih (step s i).1 (k + 1) h'
        rw [hprev] at hrec
        have hcnt : bEdges s.previous_b_pressed (i :: rest) = 1 + bEdges i.b rest := by
          simp [bEdges, he]
        rw [hstep, hrec, hcnt]
        have harith : k + 1 + bEdges i.b rest = k + (1 + bEdges i.b rest) := by omega
        rw [harith]
      · have hidx : (step s i).1.b_color_index = s.b_color_index := by
          rw [step_b_color_index]
          simp [he]
        have hrec := ih (step s i).1 k (by rw [hidx, h])
        rw [hprev] at hrec
        have hcnt : bEdges s.previous_b_pressed (i :: rest) = bEdges i.b rest := by
          simp [bEdges, he]
        rw [hstep, hrec, hcnt]

/-- C2: starting from the initial state (`b_color_index = -1`), after any
run containing `n` rising edges of button B, `b_color_index` equals
`(n - 1) mod 5` (and remains `-1` when `n = 0`), so successive B presses
select the entries of `b_color_cycle` in order and wrap around. -/
theorem b_color_index_counts_presses (is : List Input) :
    (run initState is).b_color_index =
      (if bEdges false is = 0 then (-1 : Int) else ((bEdges false is : Int) - 1) % 5) := by
  have h : (run initState is).b_color_index =
      (if 0 + bEdges false is = 0 then (-1 : Int)
       else (((0 + bEdges false is : Nat) : Int) - 1) % 5) :=
    run_b_color_index is initState 0 (by decide)
  simpa using h

/-- C3: `stop_motors` is invoked exactly once in an iteration whose LB
rising edge toggles cruise mode from CRUISE to NORMAL, and zero times in
every other iteration (toggle-on edges, LB held without an edge, no LB). -/
theorem stop_motors_called_iff_toggle_off (s : State) (i : Input) :
    (step s i).2.stop_motors_calls =
      if i.lb && !s.previous_lb_pressed && s.cruise_mode then 1 else 0 := by
  have h : (step s i).2.stop_motors_calls =
      (if (i.lb && !s.previous_lb_pressed) &&
          !(if i.lb && !s.previous_lb_pressed then !s.cruise_mode else s.cruise_mode)
       then 1 else 0) := rfl
  rw [h]
  cases hl : i.lb <;> cases hp : s.previous_lb_pressed <;> cases hc : s.cruise_mode <;> simp

/-- C4 counterexample: in the initial state cruise mode is off, yet a UP
rising edge still changes `cruise_speed` (1000 becomes 1100), so UP/DOWN
edges do NOT leave `cruise_speed` unchanged while `cruise_mode` is False. -/
theorem cruise_speed_adjusts_in_normal_mode :
    initState.cruise_mode = false ∧
    upInput.up = true ∧
    initState.previous_up_pressed = false ∧
    (step initState upInput).1.cruise_speed ≠ initState.cruise_speed := by
  refine ⟨rfl, rfl, rfl, ?_⟩
  decide

/-- C4 amended: UP and DOWN rising edges adjust `cruise_speed` (clamped to
`[-2000, 2000]` in steps of 100) in EVERY mode, not only in CRUISE mode:
the update is exactly the clamped step expression and is unchanged if
`cruise_mode` is flipped; `cruise_speed` persists across mode toggles. -/
theorem cruise_speed_update_mode_independent (s : State) (i : Input) :
    (step s i).1.cruise_speed =
      (if i.down && !s.previous_down_pressed then
         max ((if i.up && !s.previous_up_pressed then
                 min (s.cruise_speed + 100) 2000
               else s.cruise_speed) - 100) (-2000)
       else
         (if i.up && !s.previous_up_pressed then
            min (s.cruise_speed + 100) 2000
          else s.cruise_speed)) ∧
    (step s i).1.cruise_speed =
      (step { s with cruise_mode := !s.cruise_mode } i).1.cruise_speed :=
  ⟨rfl, rfl⟩

/-- C5: in NORMAL mode (cruise mode off for this iteration's speed
computation) with LEFT and RIGHT d-pad not pressed, motor 1 is commanded
`left_vertical * 20` and motor 2 is commanded `right_vertical * 20`. -/
theorem normal_mode_speed_mapping (s : State) (i : Input)
    (hmode : (step s i).1.cruise_mode = false)
    (hleft : i.left = false) (hright : i.right = false) :
    (step s i).2.motor1_speed = i.left_vertical * 20 ∧
    (step s i).2.motor2_speed = i.right_vertical * 20 := by
  constructor
  · rw [step_motor1_speed, hleft, hmode]
    simp
  · rw [step_motor2_speed, hright, hmode]
    simp

/-- Witness for C5 at the spec's example: verticals both 50 in the initial
(NORMAL) state command speed 1000 to both motors. -/
theorem normal_mode_speed_mapping_witness :
    (step initState joys50Input).2.motor1_speed = 1000 ∧
    (step initState joys50Input).2.motor2_speed = 1000 := by
  have h := normal_mode_speed_mapping initState joys50Input rfl rfl rfl
  refine ⟨?_, ?_⟩
  · rw [h.1]
    decide
  · rw [h.2]
    decide

/-- C6: the skid-steer rumble pulse is issued exactly when the iteration
is in NORMAL mode and the two joystick verticals exceed opposite
thresholds; in particular it is never issued in CRUISE mode. -/
theorem skid_rumble_characterization (s : State) (i : Input) :
    (step s i).2.skid_rumble = true ↔
      ((step s i).1.cruise_mode = false ∧
       ((i.left_vertical > 20 ∧ i.right_vertical < -20) ∨
        (i.left_vertical < -20 ∧ i.right_vertical > 20))) := by
  rw [step_skid_rumble]
  cases h : (step s i).1.cruise_mode <;> simp

/-- C7: in every mode, holding RIGHT makes motor 2's command the base
speed reduced by 300 and clamped at -2000, and likewise LEFT for motor 1;
in particular the reduced command never goes below -2000. -/
theorem turn_assist_clamped (s : State) (i : Input) :
    (i.right = true →
       (step s i).2.motor2_speed =
         max ((if (step s i).1.cruise_mode then (step s i).1.cruise_speed
               else i.right_vertical * 20) - 300) (-2000) ∧
       -2000 ≤ (step s i).2.motor2_speed) ∧
    (i.left = true →
       (step s i).2.motor1_speed =
         max ((if (step s i).1.cruise_mode then (step s i).1.cruise_speed
               else i.left_vertical * 20) - 300) (-2000) ∧
       -2000 ≤ (step s i).2.motor1_speed) := by
  constructor
  · intro hr
    have h2 : (step s i).2.motor2_speed =
        max ((if (step s i).1.cruise_mode then (step s i).1.cruise_speed
              else i.right_vertical * 20) - 300) (-2000) := by
      rw [step_motor2_speed, hr]
      simp
    exact ⟨h2, by rw [h2]; exact le_max_right _ _⟩
  · intro hl
    have h1 : (step s i).2.motor1_speed =
        max ((if (step s i).1.cruise_mode then (step s i).1.cruise_speed
              else i.left_vertical * 20) - 300) (-2000) := by
      rw [step_motor1_speed, hl]
      simp
    exact ⟨h1, by rw [h1]; exact le_max_right _ _⟩

/-- Witness for C7: with both verticals at -100 (base speed -2000) and
LEFT and RIGHT held, both reduced commands are clamped at -2000. -/
theorem turn_assist_clamped_witness :
    (step initState turnInput).2.motor2_speed =
      max ((if (step initState turnInput).1.cruise_mode
            then (step initState turnInput).1.cruise_speed
            else turnInput.right_vertical * 20) - 300) (-2000) ∧
    -2000 ≤ (step initState turnInput).2.motor2_speed ∧
    -2000 ≤ (step initState turnInput).2.motor1_speed := by
  have h := turn_assist_clamped initState turnInput
  exact ⟨(h.1 rfl).1, (h.1 rfl).2, (h.2 rfl).2⟩

/-- C8: on an iteration where RB transitions from pressed to not pressed,
the iteration ends with the hub light showing the base color determined by
the current state (`b_color_cycle[b_color_index]` if the index is
non-negative, else yellow in cruise mode and green otherwise). -/
theorem rb_release_restores_base (s : State) (i : Input)
    (hprev : s.previous_rb_pressed = true) (hnow : i.rb = false) :
    (step s i).1.light =
      set_base_light (step s i).1.b_color_index (step s i).1.cruise_mode := by
  simp only [step, hprev, hnow]
  simp

/-- Witness for C8: releasing RB in the initial state restores the base
light. -/
theorem rb_release_restores_base_witness :
    (step rbHeldState noInput).1.light =
      set_base_light (step rbHeldState noInput).1.b_color_index
        (step rbHeldState noInput).1.cruise_mode :=
  rb_release_restores_base rbHeldState noInput rfl rfl

/-- C9: `stop_motors` applies the three-tier fallback in order: braked
stop on both motors when tier 1 raises nowhere; otherwise plain stop on
both motors when tier 2 raises nowhere (without reaching `run(0)`);
otherwise `run(0)` on both motors; and an exception escapes only from the
final `run(0)` tier — tier 1 and tier 2 exceptions are swallowed. -/
theorem stop_motors_three_tier_fallback (env : StopEnv) :
    (tier1_fails env = false →
       stop_motors env = ([StopCall.brake1, StopCall.brake2], false)) ∧
    (tier1_fails env = true → tier2_fails env = false →
       (StopCall.stop1 ∈ (stop_motors env).1 ∧ StopCall.stop2 ∈ (stop_motors env).1 ∧
        StopCall.run1 ∉ (stop_motors env).1 ∧ (stop_motors env).2 = false)) ∧
    (tier1_fails env = true → tier2_fails env = true →
       (StopCall.run1 ∈ (stop_motors env).1 ∧
        (env.run1_raises = false → StopCall.run2 ∈ (stop_motors env).1) ∧
        (stop_motors env).2 = (env.run1_raises || env.run2_raises))) ∧
    ((stop_motors env).2 = true → env.run1_raises = true ∨ env.run2_raises = true) := by
  rcases env with ⟨im, b1, b2, s1, s2, r1, r2⟩
  refine ⟨?_, ?_, ?_, ?_⟩ <;>
    cases im <;> cases b1 <;> cases b2 <;> cases s1 <;> cases s2 <;> cases r1 <;> cases r2 <;>
      decide

/-- Witness for C9: when the braked stop raises on motor 1 and the plain
stops succeed, both plain stops are attempted, `run(0)` is not reached,
and no exception escapes. -/
theorem stop_motors_three_tier_fallback_witness :
    StopCall.stop1 ∈ (stop_motors stopEnvEx).1 ∧
    StopCall.stop2 ∈ (stop_motors stopEnvEx).1 ∧
    StopCall.run1 ∉ (stop_motors stopEnvEx).1 ∧
    (stop_motors stopEnvEx).2 = false :=
  (stop_motors_three_tier_fallback stopEnvEx).2.1 rfl rfl

/-- One iteration keeps `b_color_index` within `[0, 4]` once it is there. -/
lemma step_index_range (s : State) (i : Input)
    (h1 : 0 ≤ s.b_color_index) (h2 : s.b_color_index ≤ 4) :
    0 ≤ (step s i).1.b_color_index ∧ (step s i).1.b_color_index ≤ 4 := by
  rw [step_b_color_index, b_cycle_len]
  split_ifs <;> omega

/-- Running any input list keeps `b_color_index` within `[0, 4]`. -/
lemma run_index_range : ∀ (is : List Input) (s : State),
    0 ≤ s.b_color_index → s.b_color_index ≤ 4 →
    0 ≤ (run s is).b_color_index ∧ (run s is).b_color_index ≤ 4
  | [], _, h1, h2 => ⟨h1, h2⟩
  | i :: rest, s, h1, h2 =>
      run_index_range rest (step s i).1 (step_index_range s i h1 h2).1
        (step_index_range s i h1 h2).2

/-- Runs compose over list append. -/
lemma run_append : ∀ (is js : List Input) (s : State), run s (is ++ js) = run (run s is) js
  | [], _, _ => rfl
  | i :: rest, js, s => run_append rest js (step s i).1

/-- C10: once button B has seen at least one rising edge, `b_color_index`
stays in `[0, 4]` for every continuation of the run: nothing ever resets
it to -1, so the color override can never be disabled again. -/
theorem override_never_disabled (is js : List Input) (h : 1 ≤ bEdges false is) :
    0 ≤ (run initState (is ++ js)).b_color_index ∧
    (run initState (is ++ js)).b_color_index ≤ 4 := by
  rw [run_append]
  have hidx : (run initState is).b_color_index =
      (if 0 + bEdges false is = 0 then (-1 : Int)
       else (((0 + bEdges false is : Nat) : Int) - 1) % 5) :=
    run_b_color_index is initState 0 (by decide)
  have hb : 0 ≤ (run initState is).b_color_index ∧ (run initState is).b_color_index ≤ 4 := by
    rw [hidx]
    split_ifs with h0 <;> omega
  exact run_index_range js (run initState is) hb.1 hb.2

/-- Witness for C10: one B press followed by an idle iteration leaves the
index in `[0, 4]`. -/
theorem override_never_disabled_witness :
    1 ≤ bEdges false [bPressInput] ∧
    (0 ≤ (run initState ([bPressInput] ++ [noInput])).b_color_index ∧
     (run initState ([bPressInput] ++ [noInput])).b_color_index ≤ 4) :=
  ⟨by decide, override_never_disabled [bPressInput] [noInput] (by decide)⟩

end Req
